import Mathlib

/-!
Shallow embedding of the task-tracking / notification-overlay subsystem of
`modules/mod_notification.py` (class `Notification`), together with proofs of
the specification's claims about it.

Python dicts are embedded as association lists with unique keys (insertion
order preserved, as in Python); floats (timestamps, progress values) are
embedded as rationals; emitted signals, log calls and collaborator
invocations are recorded as explicit event traces; drawing calls on the
cairo-like surface are recorded as a trace of draw operations.
-/

set_option autoImplicit false

namespace Modrana

/-- The per-task value stored in `Notification._tasks`: a `(status, progress)`
pair, each `None` until first set. -/
abbrev TaskState := Option String × Option ℚ

/-- `Notification._tasks`: a Python dict from task name to `(status, progress)`,
embedded as an insertion-ordered association list with unique keys. -/
abbrev Tasks := List (String × TaskState)

/-- Dict lookup `self._tasks.get(taskName)`. -/
def lookupTask : Tasks → String → Option TaskState
  | [], _ => Option.none
  | (k, v) :: rest, n => if k = n then some v else lookupTask rest n

/-- `taskName in self._tasks` (membership test backing the `KeyError` branch). -/
def hasTask (ts : Tasks) (n : String) : Bool :=
  (lookupTask ts n).isSome

/-- Dict assignment `self._tasks[taskName] = v`: update in place when the key
is present, append otherwise (Python dicts preserve insertion order). -/
def setTask : Tasks → String → TaskState → Tasks
  | [], n, v => [(n, v)]
  | (k, w) :: rest, n, v =>
      if k = n then (k, v) :: rest else (k, w) :: setTask rest n v

/-- Dict deletion `del self._tasks[taskName]`: since dict keys are unique,
removing the single matching entry is embedded as filtering the key out. -/
def delTask (ts : Tasks) (n : String) : Tasks :=
  ts.filter (fun kv => kv.1 ≠ n)

/-- Outward-observable effects of the `Notification` module: emitted signals,
log calls and the thread-manager cancellation request.  Log calls are recorded
structurally (by call site and arguments) rather than as formatted strings. -/
inductive Event where
  /-- `self.tasksChanged(self._tasks)` emitted with the current table. -/
  | tasksChanged (tasks : Tasks)
  /-- `self.wipOverlayEnabled(b)`. -/
  | wipOverlayEnabled (b : Bool)
  /-- `self.modrana.notify(text, timeoutMs)`. -/
  | notify (text : String) (timeoutMs : Int)
  /-- `self.log.error("error, can't remove unknown task: %s", taskName)`. -/
  | logUnknownTaskError (taskName : String)
  /-- `self.log.exception("wrong timeout, using default 5 seconds")`. -/
  | logWrongTimeout
  /-- `self.log.error("wrong message: %s", message)`. -/
  | logWrongMessage (message : String)
  /-- `self.log.info("task %s has been cancelled", taskName)`. -/
  | logTaskCancelled (taskName : String)
  /-- `threadMgr.cancel_thread(taskName)`. -/
  | cancelThread (taskName : String)
  /-- `self.set('needRedraw', True)`. -/
  | setNeedRedraw
  deriving DecidableEq, Repr

/-- The mutable state of the `Notification` module instance (the fields of
`Notification.__init__` used by the task/banner subsystem). -/
structure Notification where
  notificationText : String
  timeout : Int
  position : String
  expirationTimestamp : ℚ
  draw : Bool
  showWorkInProgressOverlay : Bool
  workStartTimestamp : Option ℚ
  tasks : Tasks
  deriving DecidableEq, Repr

/-- `Notification.__init__` at construction time `now` (`time.time()`). -/
def initNotification (now : ℚ) : Notification :=
  { notificationText := ""
    timeout := 5000
    position := "middle"
    expirationTimestamp := now
    draw := false
    showWorkInProgressOverlay := false
    workStartTimestamp := Option.none
    tasks := [] }

/-- `Notification._startWorkInProgressOverlay` at time `now`: edge-triggered on
the `_showWorkInProgressOverlay` flag; a no-op when already enabled. -/
def startWorkInProgressOverlay (st : Notification) (now : ℚ) :
    Notification × List Event :=
  if ¬ st.showWorkInProgressOverlay then
    ({ st with showWorkInProgressOverlay := true, workStartTimestamp := some now },
     [Event.wipOverlayEnabled true])
  else
    (st, [])

/-- `Notification._stopWorkInProgressOverlay`: unconditionally clears the flag
and emits the disabled signal. -/
def stopWorkInProgressOverlay (st : Notification) : Notification × List Event :=
  ({ st with showWorkInProgressOverlay := false }, [Event.wipOverlayEnabled false])

/-- `Notification.setTaskStatus(taskName, status)` at time `now`. -/
def setTaskStatus (st : Notification) (now : ℚ) (taskName status : String) :
    Notification × List Event :=
  let old := (lookupTask st.tasks taskName).getD (Option.none, Option.none)
  let tasks1 := setTask st.tasks taskName (some status, old.2)
  let st1 := { st with tasks := tasks1 }
  let evs := [Event.tasksChanged tasks1]
  if status ≠ "" then
    let r := startWorkInProgressOverlay st1 now
    (r.1, evs ++ r.2)
  else
    (st1, evs)

/-- `Notification.setTaskProgress(taskName, progress)` at time `now`.  The
overlay is started whenever `progress is not None` (`0.0` included). -/
def setTaskProgress (st : Notification) (now : ℚ) (taskName : String)
    (progress : Option ℚ) : Notification × List Event :=
  let old := (lookupTask st.tasks taskName).getD (Option.none, Option.none)
  let tasks1 := setTask st.tasks taskName (old.1, progress)
  let st1 := { st with tasks := tasks1 }
  let evs := [Event.tasksChanged tasks1]
  if progress ≠ Option.none then
    let r := startWorkInProgressOverlay st1 now
    (r.1, evs ++ r.2)
  else
    (st1, evs)

/-- `Notification.removeTask(taskName)`: deletes the entry and emits
`tasksChanged` when present, logs an error on `KeyError` otherwise; in both
cases stops the work-in-progress overlay when the table ends up empty. -/
def removeTask (st : Notification) (taskName : String) :
    Notification × List Event :=
  let r :=
    if hasTask st.tasks taskName then
      let tasks1 := delTask st.tasks taskName
      (({ st with tasks := tasks1 } : Notification), [Event.tasksChanged tasks1])
    else
      (st, [Event.logUnknownTaskError taskName])
  if r.1.tasks = [] then
    let r2 := stopWorkInProgressOverlay r.1
    (r2.1, r.2 ++ r2.2)
  else
    r

/-- Modelled from the spec: `threadMgr.cancel_thread(taskName)` lives in
`core/threads.py`, which is not part of the sources here; per the spec it is a
best-effort fire-and-forget signal that "must not crash" for unknown or
already-finished tasks, so it is embedded as a pure event emission with no
effect on the module state. -/
def cancelThreadSignal (taskName : String) : Event :=
  Event.cancelThread taskName

/-- `Notification.cancelTask(taskName)`: signals the thread manager, removes
the task from tracking, then logs completion. -/
def cancelTask (st : Notification) (taskName : String) :
    Notification × List Event :=
  let r := removeTask st taskName
  (r.1, cancelThreadSignal taskName :: r.2 ++ [Event.logTaskCancelled taskName])

/-- `Notification._startCustomNotificationCB(message, ms_timeout)` at time
`now`: records the banner text and computes `expirationTimestamp =
time.time() + ms_timeout/1000.0`, enables drawing and requests a redraw. -/
def startCustomNotificationCB (st : Notification) (now : ℚ) (message : String)
    (msTimeout : Int) : Notification × List Event :=
  ({ st with
      position := "middle"
      notificationText := message
      expirationTimestamp := now + (msTimeout : ℚ) / 1000
      draw := true },
   [Event.setNeedRedraw])

/-! ## Numeric string parsing (Python `int(...)` and `float(...)`) -/

/-- Decimal value of a run of digit characters (`foldl` accumulator form). -/
def digitsVal (cs : List Char) : Nat :=
  cs.foldl (fun acc c => acc * 10 + (c.toNat - 48)) 0

/-- Python whitespace (the characters `str.strip()` and the numeric
constructors strip). -/
def isPySpace (c : Char) : Bool :=
  c == ' ' || c == '\t' || c == '\n' || c == '\r' || c == '\x0b' || c == '\x0c'

/-- Strip leading and trailing whitespace from a character list. -/
def stripChars (cs : List Char) : List Char :=
  ((cs.dropWhile isPySpace).reverse.dropWhile isPySpace).reverse

/-- Python `int(s)` on a string: strips surrounding whitespace, then accepts an
optional sign followed by a nonempty run of decimal digits; anything else
raises `ValueError`, embedded as `none`. -/
def pyInt (s : String) : Option Int :=
  let core : List Char → Option Int := fun cs =>
    if cs ≠ [] ∧ cs.all Char.isDigit then some (digitsVal cs : Int) else Option.none
  match stripChars s.toList with
  | '+' :: rest => core rest
  | '-' :: rest => (core rest).map Neg.neg
  | rest => core rest

/-- Unsigned part of Python `float(s)` on plain decimal literals: `digits`,
`digits.digits`, `digits.` or `.digits`. -/
def pyFloatCore (cs : List Char) : Option ℚ :=
  let ip := cs.takeWhile Char.isDigit
  let rest := cs.dropWhile Char.isDigit
  match rest with
  | [] => if ip ≠ [] then some (digitsVal ip : ℚ) else Option.none
  | '.' :: frac =>
      if frac.all Char.isDigit ∧ ¬(ip = [] ∧ frac = []) then
        some ((digitsVal ip : ℚ) + (digitsVal frac : ℚ) / 10 ^ frac.length)
      else Option.none
  | _ => Option.none

/-- Python `float(s)` on a string (plain decimal literals, optional sign);
failure raises `ValueError`, embedded as `none`. -/
def pyFloat (s : String) : Option ℚ :=
  match stripChars s.toList with
  | '+' :: rest => pyFloatCore rest
  | '-' :: rest => (pyFloatCore rest).map Neg.neg
  | rest => pyFloatCore rest

/-- Python `s.split(sep)` for a one-character separator, on character lists:
`"".split` yields one empty field, and every separator occurrence starts a new
field. -/
def splitOnChar (sep : Char) : List Char → List (List Char)
  | [] => [[]]
  | c :: cs =>
      if c = sep then
        [] :: splitOnChar sep cs
      else
        match splitOnChar sep cs with
        | [] => [[c]]
        | g :: gs => (c :: g) :: gs

/-- Python `message.split('#')`. -/
def splitOnHash (s : String) : List String :=
  (splitOnChar '#' s.toList).map (fun cs => String.mk cs)

/-- Python `int(q)` on a number: truncation toward zero. -/
def truncInt (q : ℚ) : Int :=
  if q < 0 then -(-q).floor else q.floor

/-! ## Message handling -/

/-- The `args` argument of `handleMessage`: absent, a single string (the
`ms:` form) or a list of strings (the `ml:` form). -/
inductive Args where
  | nil
  | str (s : String)
  | list (l : List String)
  deriving DecidableEq, Repr

/-- Python truthiness of `args` (`if args:`). -/
def Args.truthy : Args → Bool
  | .nil => false
  | .str s => s ≠ ""
  | .list l => l ≠ []

/-- Python `len(args)`. -/
def Args.len : Args → Nat
  | .nil => 0
  | .str s => s.length
  | .list l => l.length

/-- Python `args[i]` (indexing a string yields a one-character string); only
evaluated behind length guards, so the out-of-range default is never hit. -/
def Args.get : Args → Nat → String
  | .nil, _ => ""
  | .str s, i => (s.toList.getD i ' ').toString
  | .list l, i => l.getD i ""

/-- `Notification.handleMessage(message, messageType, args)` at time `now`.
The four dispatch branches of the source, in order: the structured `ml`/`m`
form, the `workInProgressOverlay` enable/disable directive, the `cancelTask`
directive, and the fallback `text#timeoutSeconds` free-text form.  An
uncaught Python exception is embedded as `Except.error`. -/
def handleMessage (st : Notification) (now : ℚ) (message messageType : String)
    (args : Args) : Except String (Notification × List Event) :=
  if messageType = "ml" ∧ message = "m" then
    if args.truthy then
      if 2 ≤ args.len then
        match pyFloat (args.get 1) with
        | Option.none => Except.error "ValueError: could not convert string to float"
        | some q => Except.ok (st, [Event.notify (args.get 0) (truncInt (q * 1000))])
      else
        Except.ok (st, [Event.notify (args.get 0) st.timeout])
    else
      Except.ok (st, [])
  else if messageType = "ml" ∧ message = "workInProgressOverlay" then
    if args.truthy then
      if args.get 0 = "enable" then
        let r := startWorkInProgressOverlay st now
        Except.ok r
      else if args.get 0 = "disable" then
        Except.ok (stopWorkInProgressOverlay st)
      else
        Except.ok (st, [])
    else
      Except.ok (st, [])
  else if messageType ≠ "" ∧ message = "cancelTask" then
    match args with
    | .str s => if s ≠ "" then Except.ok (cancelTask st s) else Except.ok (st, [])
    | .list l =>
        -- `self.cancelTask(args)` with a list ends in `del self._tasks[args]`,
        -- and an unhashable dict key raises TypeError, caught nowhere
        if l ≠ [] then Except.error "TypeError: unhashable type" else Except.ok (st, [])
    | .nil => Except.ok (st, [])
  else
    let parameterList := splitOnHash message
    if 2 ≤ parameterList.length then
      let messageText := parameterList.getD 0 ""
      let firstNotify := Event.notify messageText st.timeout
      if parameterList.length = 2 then
        match pyInt (parameterList.getD 1 "") with
        | some k => Except.ok (st, [firstNotify, Event.notify messageText (k * 1000)])
        | Option.none =>
            Except.ok (st, [firstNotify, Event.logWrongTimeout,
                            Event.notify messageText st.timeout])
      else
        Except.ok (st, [firstNotify, Event.notify messageText st.timeout])
    else
      Except.ok (st, [Event.logWrongMessage message])

/-! ## Drawing -/

/-- The `menu` module collaborator, reduced to the one query the draw code
needs a result from: `measureWrappedText(cr, text, maxWidth, fontSize)`
returning `(width, height)` of the wrapped text. -/
structure Menus where
  measureWrappedText : String → ℚ → ℚ → ℚ × ℚ

/-- The dynamically looked-up collaborators of the draw code:
`self.m.get('projection')`, `self.m.get('menu')`, `self.get('viewport')`
(as `(x, y, w, h)`) and `self.m.get('clickHandler')`; each may be absent. -/
structure Collaborators where
  projection : Bool
  menus : Option Menus
  viewport : Option (ℚ × ℚ × ℚ × ℚ)
  clickHandler : Bool

/-- One drawing-side operation: a call on the cairo context `cr`, on the menu
module's text/button helpers, or on the click handler's region registry. -/
inductive DrawOp where
  | setSourceRGBA (r g b a : ℚ)
  | setLineWidth (w : ℚ)
  | rectangle (x y w h : ℚ)
  | fill
  /-- `menus.showText(cr, text, x, y, w, fontSize, color)`; the text is the
  stored task status, possibly `None`. -/
  | showText (text : Option String) (x y w fontSize : ℚ) (color : String)
  /-- `menus.showWrappedText(cr, text, x, y, w, fontSize, color)`. -/
  | showWrappedText (text : String) (x y w fontSize : ℚ) (color : String)
  /-- `menus.drawButton(cr, x1, y1, dx, dy, ...)`. -/
  | drawButton (x y dx dy : ℚ)
  /-- `click.registerXYWH(x1, y1, dx, dy, message, layer=2)`. -/
  | registerXYWH (x y dx dy : ℚ) (message : String)
  deriving DecidableEq, Repr

/-- `Notification.drawCancelButton(cr, coords, taskName)`: draws the button
and registers the hit region only when both the menu module and the click
handler are present.  Callers in this module always pass explicit coords. -/
def drawCancelButton (c : Collaborators) (coords : ℚ × ℚ × ℚ × ℚ)
    (taskName : Option String) : List DrawOp :=
  if c.menus.isSome ∧ c.clickHandler then
    let x1 := coords.1
    let y1 := coords.2.1
    let dx := coords.2.2.1
    let dy := coords.2.2.2
    [DrawOp.drawButton x1 y1 dx dy] ++
      (match taskName with
       | some n => [DrawOp.registerXYWH x1 y1 dx dy ("ms:notification:cancelTask:" ++ n)]
       | Option.none => [DrawOp.registerXYWH x1 y1 dx dy "onlineServices:cancelOperation"])
  else
    []

/-- The per-task loop body of `drawWorkInProgressOverlay`, iterating the table
in insertion order with a running `taskIndex`. -/
def drawTaskRows (c : Collaborators) (sx sy w h itemHeight : ℚ)
    (taskIndex : Nat) : Tasks → List DrawOp
  | [] => []
  | (taskName, taskState) :: rest =>
      let cbdx := min w h / 5
      let cbdy := cbdx
      let cbx1 := (sx + w) - cbdx
      let cby1 := sy + cbdy * (taskIndex : ℚ)
      let border := min (w / 20) (h / 20)
      drawCancelButton c (cbx1, cby1, cbdx, cbdy) (some taskName) ++
        [DrawOp.showText taskState.1 (0 + border)
          (0 + border + itemHeight * (taskIndex : ℚ)) (w - 2 * border - cbdx) 30 "white"] ++
        drawTaskRows c sx sy w h itemHeight (taskIndex + 1) rest

/-- `Notification.drawWorkInProgressOverlay(cr)`: draws a translucent
background band sized to the task count, then a cancel button and status text
per task; draws nothing unless the table is non-empty and the projection,
viewport and menu collaborators are all present. -/
def drawWorkInProgressOverlay (st : Notification) (c : Collaborators) :
    List DrawOp :=
  match c.viewport, c.menus with
  | some v, some _ =>
      if st.tasks ≠ [] ∧ c.projection then
        let sx := v.1
        let sy := v.2.1
        let w := v.2.2.1
        let h := v.2.2.2
        let taskCount : ℚ := st.tasks.length
        let itemHeight := h * 0.2
        [DrawOp.setSourceRGBA 0.5 0.5 1 0.5,
         DrawOp.rectangle 0 0 w (itemHeight * taskCount),
         DrawOp.fill] ++
          drawTaskRows c sx sy w h itemHeight 0 st.tasks
      else
        []
  | _, _ => []

/-- `Notification._drawNotification(cr)` at time `now`: when the banner has
not yet expired and the projection, menu and viewport collaborators are all
present, draws the translucent background box sized to the measured wrapped
text plus borders and the text inside it; past expiry it only clears the
`draw` flag. -/
def drawNotification (st : Notification) (c : Collaborators) (now : ℚ) :
    Notification × List DrawOp :=
  if now ≤ st.expirationTimestamp then
    match c.projection, c.menus, c.viewport with
    | true, some menus, some v =>
        let w := v.2.2.1
        let h := v.2.2.2
        let border := min (w / 20) (h / 20)
        let fontSize : ℚ := 30
        let measured := menus.measureWrappedText st.notificationText (w - border * 2) fontSize
        let textw := measured.1
        let texth := measured.2
        let rw := textw + 2 * border
        let rh := texth + 2 * border
        let rx := (w - rw) / 2
        let ry := (h - rh) / 2
        let tx := rx + border
        let ty := ry + border
        (st, [DrawOp.setSourceRGBA 0 0 1 0.45,
              DrawOp.setLineWidth 2,
              DrawOp.setSourceRGBA 0 0 1 0.45,
              DrawOp.rectangle rx ry rw rh,
              DrawOp.fill,
              DrawOp.showWrappedText st.notificationText tx ty textw fontSize "white"])
    | _, _, _ => (st, [])
  else
    ({ st with draw := false }, [])

/-- `Notification.drawMasterOverlay(cr)` at time `now`: banner first, then,
when the work-in-progress flag is on, the task-table overlay. -/
def drawMasterOverlay (st : Notification) (c : Collaborators) (now : ℚ) :
    Notification × List DrawOp :=
  let r := drawNotification st c now
  if r.1.showWorkInProgressOverlay then
    (r.1, r.2 ++ drawWorkInProgressOverlay r.1 c)
  else
    r

/-! ## Event classifiers and concrete fixtures used by the theorems -/

/-- Recognizes a `tasksChanged` emission in an event trace. -/
def isTasksChangedEvent : Event → Bool
  | Event.tasksChanged _ => true
  | _ => false

/-- Recognizes a `wipOverlayEnabled` emission in an event trace. -/
def isWipOverlayEvent : Event → Bool
  | Event.wipOverlayEnabled _ => true
  | _ => false

/-- Recognizes a `modrana.notify` invocation in an event trace. -/
def isNotifyEvent : Event → Bool
  | Event.notify _ _ => true
  | _ => false

/-- The timeout the second `notify` call of the fallback free-text branch
uses: the parsed `seconds * 1000` when there are exactly two parts and the
suffix parses, the module default otherwise. -/
def secondNotifyTimeout (st : Notification) (rest : List String) : Int :=
  match rest with
  | [tstr] =>
      match pyInt tstr with
      | some k => k * 1000
      | Option.none => st.timeout
  | _ => st.timeout

/-- A module state with one tracked task and the work-in-progress flag on. -/
def wipActiveState : Notification :=
  { initNotification 0 with
      tasks := [("a", (some "x", Option.none))]
      showWorkInProgressOverlay := true }

/-- A full set of collaborators for exercising the draw code. -/
def bannerCollab : Collaborators :=
  { projection := true
    menus := some { measureWrappedText := fun _ _ _ => (100, 30) }
    viewport := some (0, 0, 800, 600)
    clickHandler := true }

/-- An empty set of collaborators for exercising the draw guards. -/
def absentCollab : Collaborators :=
  { projection := false
    menus := Option.none
    viewport := Option.none
    clickHandler := false }

/-! ## Helper lemmas about the task table -/

theorem lookupTask_setTask_self (ts : Tasks) (n : String) (v : TaskState) :
    lookupTask (setTask ts n v) n = some v := by
  induction ts with
  | nil => simp [setTask, lookupTask]
  | cons kv rest ih =>
      obtain ⟨k, w⟩ := kv
      by_cases hk : k = n
      · simp [setTask, lookupTask, hk]
      · simp [setTask, lookupTask, hk, ih]

theorem lookupTask_delTask_self (ts : Tasks) (n : String) :
    lookupTask (delTask ts n) n = Option.none := by
  induction ts with
  | nil => rfl
  | cons kv rest ih =>
      obtain ⟨k, w⟩ := kv
      by_cases hk : k = n
      · simpa [delTask, List.filter_cons, hk] using ih
      · simpa [delTask, List.filter_cons, lookupTask, hk] using ih

theorem startWip_tasks (st : Notification) (now : ℚ) :
    (startWorkInProgressOverlay st now).1.tasks = st.tasks := by
  unfold startWorkInProgressOverlay
  split <;> rfl

theorem startWip_flag (st : Notification) (now : ℚ) :
    (startWorkInProgressOverlay st now).1.showWorkInProgressOverlay = true := by
  unfold startWorkInProgressOverlay
  split
  · rfl
  · next h => simpa using h

theorem setTaskStatus_tasks (st : Notification) (now : ℚ) (n s : String) :
    (setTaskStatus st now n s).1.tasks
      = setTask st.tasks n
          (some s, ((lookupTask st.tasks n).getD (Option.none, Option.none)).2) := by
  simp only [setTaskStatus]
  split
  · exact startWip_tasks _ _
  · rfl

theorem setTaskProgress_tasks (st : Notification) (now : ℚ) (n : String)
    (p : Option ℚ) :
    (setTaskProgress st now n p).1.tasks
      = setTask st.tasks n
          (((lookupTask st.tasks n).getD (Option.none, Option.none)).1, p) := by
  simp only [setTaskProgress]
  split
  · exact startWip_tasks _ _
  · rfl

theorem removeTask_tasks (st : Notification) (n : String) :
    (removeTask st n).1.tasks
      = if hasTask st.tasks n = true then delTask st.tasks n else st.tasks := by
  by_cases h : hasTask st.tasks n = true
  · simp only [removeTask, stopWorkInProgressOverlay, h, if_true]
    split <;> rfl
  · simp only [removeTask, stopWorkInProgressOverlay, h, Bool.false_eq_true, if_false]
    split <;> rfl

/-! ## Claim theorems -/

/-- C1: setting the status and the progress of a task in either order leaves
the table entry at the merged pair `(s, p)` — each operation updates only its
own field and preserves the other, which starts as `None` for a fresh task —
so the final pair is independent of the order of the two calls. -/
theorem taskUpdate_order_independent (st : Notification) (now1 now2 : ℚ)
    (n s : String) (p : Option ℚ) :
    lookupTask ((setTaskProgress (setTaskStatus st now1 n s).1 now2 n p).1.tasks) n
        = some (some s, p) ∧
    lookupTask ((setTaskStatus (setTaskProgress st now1 n p).1 now2 n s).1.tasks) n
        = some (some s, p) ∧
    (hasTask st.tasks n = false →
      lookupTask ((setTaskStatus st now1 n s).1.tasks) n
        = some (some s, Option.none)) := by
  refine ⟨?_, ?_, fun habs => ?_⟩
  · rw [setTaskProgress_tasks, setTaskStatus_tasks]
    simp [lookupTask_setTask_self]
  · rw [setTaskStatus_tasks, setTaskProgress_tasks]
    simp [lookupTask_setTask_self]
  · rw [setTaskStatus_tasks]
    have hnone : lookupTask st.tasks n = Option.none := by
      cases hl : lookupTask st.tasks n with
      | none => rfl
      | some v => rw [hasTask, hl] at habs; simp at habs
    simp [hnone, lookupTask_setTask_self]

/-- C1 witness: on the empty initial table, both orders of
`setTaskStatus("t", "working")` and `setTaskProgress("t", 0.5)` leave the
entry for `"t"` at `(some "working", some (1/2))`, and the status-only update
leaves the progress at `None`. -/
theorem taskUpdate_order_independent_witness :
    hasTask (initNotification 0).tasks "t" = false ∧
    (lookupTask ((setTaskProgress (setTaskStatus (initNotification 0) 0 "t" "working").1
          0 "t" (some (1/2))).1.tasks) "t" = some (some "working", some (1/2)) ∧
     lookupTask ((setTaskStatus (setTaskProgress (initNotification 0) 0 "t" (some (1/2))).1
          0 "t" "working").1.tasks) "t" = some (some "working", some (1/2)) ∧
     (hasTask (initNotification 0).tasks "t" = false →
       lookupTask ((setTaskStatus (initNotification 0) 0 "t" "working").1.tasks) "t"
         = some (some "working", Option.none))) :=
  ⟨rfl, taskUpdate_order_independent (initNotification 0) 0 0 "t" "working" (some (1/2))⟩

/-- C2: after `cancelTask(n)` the task `n` is absent from the table, whatever
the prior table state, and the call is total (the embedding raises nothing:
the unknown-task `KeyError` is caught inside `removeTask`, and the
thread-manager signal is fire-and-forget). -/
theorem cancelTask_absent_after (st : Notification) (n : String) :
    hasTask (cancelTask st n).1.tasks n = false := by
  show hasTask (removeTask st n).1.tasks n = false
  rw [removeTask_tasks]
  by_cases h : hasTask st.tasks n = true
  · rw [if_pos h]
    simp [hasTask, lookupTask_delTask_self]
  · rw [if_neg h]
    simpa using h

/-- C3: `removeTask(n)` for an absent `n` logs the unknown-task error,
leaves the table unchanged, emits no `tasksChanged` event, and returns
normally (the `KeyError` is caught). -/
theorem removeTask_absent_noop (st : Notification) (n : String)
    (h : hasTask st.tasks n = false) :
    (removeTask st n).1.tasks = st.tasks ∧
    ((removeTask st n).2).filter isTasksChangedEvent = [] ∧
    Event.logUnknownTaskError n ∈ (removeTask st n).2 := by
  simp only [removeTask, stopWorkInProgressOverlay, h, Bool.false_eq_true, if_false]
  split <;> simp [isTasksChangedEvent]

/-- C3 witness: removing `"nope"` from the fresh empty table. -/
theorem removeTask_absent_noop_witness :
    hasTask (initNotification 0).tasks "nope" = false ∧
    ((removeTask (initNotification 0) "nope").1.tasks = (initNotification 0).tasks ∧
     ((removeTask (initNotification 0) "nope").2).filter isTasksChangedEvent = [] ∧
     Event.logUnknownTaskError "nope" ∈ (removeTask (initNotification 0) "nope").2) :=
  ⟨rfl, removeTask_absent_noop (initNotification 0) "nope" rfl⟩

/-- C4 counterexample: the claim's final clause — "no other operation performs
the Active-to-Idle transition" — fails on the code: the
`workInProgressOverlay:disable` message directive flips the flag from Active
to Idle while the table still holds a task and no removal takes place. -/
theorem wip_disable_directive_counterexample :
    wipActiveState.showWorkInProgressOverlay = true ∧
    wipActiveState.tasks ≠ [] ∧
    handleMessage wipActiveState 0 "workInProgressOverlay" "ml" (Args.list ["disable"])
      = Except.ok ({ wipActiveState with showWorkInProgressOverlay := false },
                   [Event.wipOverlayEnabled false]) :=
  ⟨rfl, by decide, rfl⟩

/-- C4 (amended): `removeTask` moves the work-in-progress flag from Active to
Idle exactly when the table it leaves behind is empty — removing the only
task disables the flag, removing with other tasks remaining preserves it —
and neither `setTaskStatus` nor `setTaskProgress` ever performs the
Active-to-Idle transition; the `workInProgressOverlay:disable` message
directive, however, also performs it (see the counterexample). -/
theorem removeTask_wip_transition (st : Notification) (now : ℚ) (n s : String)
    (p : Option ℚ) (hA : st.showWorkInProgressOverlay = true) :
    ((removeTask st n).1.tasks = [] →
        (removeTask st n).1.showWorkInProgressOverlay = false) ∧
    ((removeTask st n).1.tasks ≠ [] →
        (removeTask st n).1.showWorkInProgressOverlay = true) ∧
    (setTaskStatus st now n s).1.showWorkInProgressOverlay = true ∧
    (setTaskProgress st now n p).1.showWorkInProgressOverlay = true := by
  refine ⟨?_, ?_, ?_, ?_⟩
  · intro hempty
    by_cases h : hasTask st.tasks n = true
    · simp only [removeTask, stopWorkInProgressOverlay, h, if_true] at hempty ⊢
      split at hempty <;> split <;> simp_all
    · simp only [removeTask, stopWorkInProgressOverlay, h, Bool.false_eq_true,
        if_false] at hempty ⊢
      split at hempty <;> split <;> simp_all
  · intro hne
    by_cases h : hasTask st.tasks n = true
    · simp only [removeTask, stopWorkInProgressOverlay, h, if_true] at hne ⊢
      split at hne <;> split <;> simp_all
    · simp only [removeTask, stopWorkInProgressOverlay, h, Bool.false_eq_true,
        if_false] at hne ⊢
      split at hne <;> split <;> simp_all
  · simp only [setTaskStatus]
    split
    · exact startWip_flag _ _
    · exact hA
  · simp only [setTaskProgress]
    split
    · exact startWip_flag _ _
    · exact hA

/-- C4 witness: with one active task `"a"`, removing `"a"` empties the table
and disables the flag, while the status/progress setters keep it enabled. -/
theorem removeTask_wip_transition_witness :
    wipActiveState.showWorkInProgressOverlay = true ∧
    (((removeTask wipActiveState "a").1.tasks = [] →
        (removeTask wipActiveState "a").1.showWorkInProgressOverlay = false) ∧
     ((removeTask wipActiveState "a").1.tasks ≠ [] →
        (removeTask wipActiveState "a").1.showWorkInProgressOverlay = true) ∧
     (setTaskStatus wipActiveState 0 "a" "s").1.showWorkInProgressOverlay = true ∧
     (setTaskProgress wipActiveState 0 "a" Option.none).1.showWorkInProgressOverlay
        = true) :=
  ⟨rfl, removeTask_wip_transition wipActiveState 0 "a" "s" Option.none rfl⟩

/-- C5: an empty (falsy) status never flips the work-in-progress indicator to
Active (the flag and its event trace are untouched), a non-empty status does
flip it from Idle, and the enabling is idempotent: when already Active, a
further truthy update leaves the flag and start timestamp unchanged and emits
no overlay-enabled event. -/
theorem setTaskStatus_wip_enable (st : Notification) (now : ℚ) (n s : String)
    (hs : s ≠ "") :
    ((setTaskStatus st now n "").1.showWorkInProgressOverlay
        = st.showWorkInProgressOverlay ∧
     ((setTaskStatus st now n "").2).filter isWipOverlayEvent = []) ∧
    (st.showWorkInProgressOverlay = false →
      (setTaskStatus st now n s).1.showWorkInProgressOverlay = true ∧
      Event.wipOverlayEnabled true ∈ (setTaskStatus st now n s).2) ∧
    (st.showWorkInProgressOverlay = true →
      (setTaskStatus st now n s).1.showWorkInProgressOverlay = true ∧
      (setTaskStatus st now n s).1.workStartTimestamp = st.workStartTimestamp ∧
      ((setTaskStatus st now n s).2).filter isWipOverlayEvent = []) := by
  refine ⟨?_, fun h0 => ?_, fun h1 => ?_⟩
  · simp [setTaskStatus, isWipOverlayEvent, isTasksChangedEvent]
  · simp only [setTaskStatus, if_pos hs, startWorkInProgressOverlay]
    simp [h0, isWipOverlayEvent]
  · simp only [setTaskStatus, if_pos hs, startWorkInProgressOverlay]
    simp [h1, isWipOverlayEvent]

/-- C5 witness: on the fresh Idle state, `setTaskStatus("t", "")` leaves the
indicator Idle while `setTaskStatus("t", "working")` enables it; on the
Active fixture the truthy update is a no-op for the indicator. -/
theorem setTaskStatus_wip_enable_witness :
    ("working" ≠ "" ∧
      (((setTaskStatus (initNotification 0) 0 "t" "").1.showWorkInProgressOverlay
          = (initNotification 0).showWorkInProgressOverlay ∧
        ((setTaskStatus (initNotification 0) 0 "t" "").2).filter isWipOverlayEvent = []) ∧
       ((initNotification 0).showWorkInProgressOverlay = false →
         (setTaskStatus (initNotification 0) 0 "t" "working").1.showWorkInProgressOverlay
            = true ∧
         Event.wipOverlayEnabled true
            ∈ (setTaskStatus (initNotification 0) 0 "t" "working").2) ∧
       ((initNotification 0).showWorkInProgressOverlay = true →
         (setTaskStatus (initNotification 0) 0 "t" "working").1.showWorkInProgressOverlay
            = true ∧
         (setTaskStatus (initNotification 0) 0 "t" "working").1.workStartTimestamp
            = (initNotification 0).workStartTimestamp ∧
         ((setTaskStatus (initNotification 0) 0 "t" "working").2).filter isWipOverlayEvent
            = []))) ∧
    (wipActiveState.showWorkInProgressOverlay = true →
      (setTaskStatus wipActiveState 0 "t" "working").1.showWorkInProgressOverlay = true ∧
      (setTaskStatus wipActiveState 0 "t" "working").1.workStartTimestamp
        = wipActiveState.workStartTimestamp ∧
      ((setTaskStatus wipActiveState 0 "t" "working").2).filter isWipOverlayEvent = []) :=
  ⟨⟨by decide, setTaskStatus_wip_enable (initNotification 0) 0 "t" "working" (by decide)⟩,
   (setTaskStatus_wip_enable wipActiveState 0 "t" "working" (by decide)).2.2⟩

/-- C6: a notification posted at time `T` with timeout `tmo` milliseconds
sets `expirationTimestamp = T + tmo/1000`, and (with all draw collaborators
present) the banner draw emits operations at render time `now` exactly when
`now ≤ T + tmo/1000` — so a 1000 ms notification is drawn at `T + 999 ms`
and not at `T + 1001 ms`. -/
theorem notification_banner_visibility (st : Notification) (c : Collaborators)
    (m : Menus) (v : ℚ × ℚ × ℚ × ℚ) (T now : ℚ) (text : String) (tmo : Int)
    (hp : c.projection = true) (hm : c.menus = some m) (hv : c.viewport = some v) :
    (startCustomNotificationCB st T text tmo).1.expirationTimestamp
        = T + (tmo : ℚ) / 1000 ∧
    ((drawNotification (startCustomNotificationCB st T text tmo).1 c now).2 ≠ []
      ↔ now ≤ T + (tmo : ℚ) / 1000) := by
  have he : (startCustomNotificationCB st T text tmo).1.expirationTimestamp
      = T + (tmo : ℚ) / 1000 := rfl
  refine ⟨he, ?_⟩
  unfold drawNotification
  rw [hp, hm, hv, he]
  by_cases hle : now ≤ T + (tmo : ℚ) / 1000
  · rw [if_pos hle]
    simp [hle]
  · rw [if_neg hle]
    simp [hle]

/-- C6 witness: `notify("hi", 1000)` posted at `T = 0` is drawn when
rendering at `999/1000` seconds and not drawn at `1001/1000` seconds. -/
theorem notification_banner_visibility_witness :
    ((drawNotification (startCustomNotificationCB (initNotification 0) 0 "hi" 1000).1
        bannerCollab (999/1000)).2 ≠ []) ∧
    ((drawNotification (startCustomNotificationCB (initNotification 0) 0 "hi" 1000).1
        bannerCollab (1001/1000)).2 = []) := by
  constructor
  · exact (notification_banner_visibility (initNotification 0) bannerCollab
      { measureWrappedText := fun _ _ _ => (100, 30) } (0, 0, 800, 600)
      0 (999/1000) "hi" 1000 rfl rfl rfl).2.mpr (by norm_num)
  · have h := (notification_banner_visibility (initNotification 0) bannerCollab
      { measureWrappedText := fun _ _ _ => (100, 30) } (0, 0, 800, 600)
      0 (1001/1000) "hi" 1000 rfl rfl rfl).2
    by_contra hne
    exact absurd (h.mp hne) (by norm_num)

/-- C7: a free-text message whose timeout suffix does not parse as an integer
is still processed: `handleMessage` returns normally, logs the bad-timeout
exception, and the notification is delivered with the module default timeout
(the source in fact calls `notify` twice, both times with the default). -/
theorem malformed_timeout_uses_default (st : Notification) (now : ℚ)
    (msg text tstr : String) (hsplit : splitOnHash msg = [text, tstr])
    (hbad : pyInt tstr = Option.none) :
    handleMessage st now msg "ms" Args.nil
      = Except.ok (st, [Event.notify text st.timeout, Event.logWrongTimeout,
                        Event.notify text st.timeout]) := by
  have hmsg : msg ≠ "cancelTask" := by
    intro hc
    rw [hc] at hsplit
    rw [show splitOnHash "cancelTask" = ["cancelTask"] from by decide] at hsplit
    simp at hsplit
  simp only [handleMessage]
  rw [if_neg (fun hcon => absurd hcon.1 (by decide))]
  rw [if_neg (fun hcon => absurd hcon.1 (by decide))]
  rw [if_neg (fun hcon => hmsg hcon.2)]
  rw [hsplit]
  simp [hbad]

/-- C7 witness: the message `"hello#abc"` with unparseable timeout `"abc"`
is delivered twice with the 5000 ms default and the error is logged. -/
theorem malformed_timeout_uses_default_witness :
    splitOnHash "hello#abc" = ["hello", "abc"] ∧ pyInt "abc" = Option.none ∧
    handleMessage (initNotification 0) 0 "hello#abc" "ms" Args.nil
      = Except.ok (initNotification 0,
          [Event.notify "hello" 5000, Event.logWrongTimeout,
           Event.notify "hello" 5000]) :=
  ⟨by decide, by decide,
    malformed_timeout_uses_default (initNotification 0) 0 "hello#abc" "hello" "abc"
      (by decide) (by decide)⟩

/-- C8: when the projection, menu or viewport collaborator is absent, the
banner draw, the task-table draw and the combined master draw all perform
zero drawing operations (and, being total functions of the embedding, raise
nothing). -/
theorem draw_missing_collaborator (st : Notification) (c : Collaborators)
    (now : ℚ)
    (h : c.projection = false ∨ c.menus = Option.none ∨ c.viewport = Option.none) :
    (drawNotification st c now).2 = [] ∧
    drawWorkInProgressOverlay st c = [] ∧
    (drawMasterOverlay st c now).2 = [] := by
  have hwip : ∀ s : Notification, drawWorkInProgressOverlay s c = [] := by
    intro s
    unfold drawWorkInProgressOverlay
    rcases h with h1 | h1 | h1
    · cases hm : c.menus <;> cases hv : c.viewport <;> simp_all
    · rw [h1]; cases c.viewport <;> rfl
    · rw [h1]
  have hnotif : ∀ s : Notification, (drawNotification s c now).2 = [] := by
    intro s
    unfold drawNotification
    split
    · rcases h with h1 | h1 | h1
      · rw [h1]
      · rw [h1]; cases c.projection <;> rfl
      · rw [h1]; cases c.projection <;> cases c.menus <;> rfl
    · rfl
  refine ⟨hnotif st, hwip st, ?_⟩
  simp only [drawMasterOverlay]
  split <;> simp [hnotif, hwip]

/-- C8 witness: with no collaborators at all, none of the three draw entry
points emits a single operation. -/
theorem draw_missing_collaborator_witness :
    absentCollab.projection = false ∧
    ((drawNotification (initNotification 0) absentCollab 0).2 = [] ∧
     drawWorkInProgressOverlay (initNotification 0) absentCollab = [] ∧
     (drawMasterOverlay (initNotification 0) absentCollab 0).2 = []) :=
  ⟨rfl, draw_missing_collaborator (initNotification 0) absentCollab 0 (Or.inl rfl)⟩

/-- C9 counterexample: a free-text message with no `'#'` at all is NOT
delivered with the default timeout — the fallback branch requires at least
two `'#'`-separated parts, so `"hello"` is rejected with a "wrong message"
error log and no `notify` call is made. -/
theorem fallback_no_hash_counterexample :
    splitOnHash "hello" = ["hello"] ∧
    handleMessage (initNotification 0) 0 "hello" "ms" Args.nil
      = Except.ok (initNotification 0, [Event.logWrongMessage "hello"]) :=
  ⟨by decide, rfl⟩

/-- C9 (amended): on the fallback free-text path the inline timeout delimiter
is required: a message whose payload contains no `'#'` (a single
`split('#')` part) is logged as a wrong message and no notification is
delivered; the module default timeout is applied only to messages that do
contain a `'#'`. -/
theorem fallback_requires_hash (st : Notification) (now : ℚ) (msg t : String)
    (hsplit : splitOnHash msg = [t]) (hmsg : msg ≠ "cancelTask") :
    handleMessage st now msg "ms" Args.nil
      = Except.ok (st, [Event.logWrongMessage msg]) := by
  simp only [handleMessage]
  rw [if_neg (fun hcon => absurd hcon.1 (by decide))]
  rw [if_neg (fun hcon => absurd hcon.1 (by decide))]
  rw [if_neg (fun hcon => hmsg hcon.2)]
  rw [hsplit]
  simp

/-- C9 witness: the hash-free message `"hello"` is rejected with an error
log and no delivery. -/
theorem fallback_requires_hash_witness :
    splitOnHash "hello" = ["hello"] ∧ "hello" ≠ "cancelTask" ∧
    handleMessage (initNotification 0) 0 "hello" "ms" Args.nil
      = Except.ok (initNotification 0, [Event.logWrongMessage "hello"]) :=
  ⟨by decide, by decide,
    fallback_requires_hash (initNotification 0) 0 "hello" "hello" (by decide) (by decide)⟩

/-- C10: on the fallback free-text path with at least one `'#'`, `notify` is
invoked exactly twice for the one incoming message: first with the default
timeout (before the suffix is parsed), then with the parsed `seconds*1000`
timeout — or the default again when parsing fails or there are more than two
parts. -/
theorem fallback_double_notify (st : Notification) (now : ℚ) (msg text : String)
    (rest : List String) (hsplit : splitOnHash msg = text :: rest)
    (hne : rest ≠ []) :
    (handleMessage st now msg "ms" Args.nil).map (fun r => r.2.filter isNotifyEvent)
      = Except.ok [Event.notify text st.timeout,
                   Event.notify text (secondNotifyTimeout st rest)] := by
  obtain ⟨r1, rs, rfl⟩ : ∃ r1 rs, rest = r1 :: rs := by
    cases rest with
    | nil => exact absurd rfl hne
    | cons a l => exact ⟨a, l, rfl⟩
  have hmsg : msg ≠ "cancelTask" := by
    intro hc
    rw [hc] at hsplit
    rw [show splitOnHash "cancelTask" = ["cancelTask"] from by decide] at hsplit
    simp at hsplit
  simp only [handleMessage]
  rw [if_neg (fun hcon => absurd hcon.1 (by decide))]
  rw [if_neg (fun hcon => absurd hcon.1 (by decide))]
  rw [if_neg (fun hcon => hmsg hcon.2)]
  rw [hsplit]
  cases rs with
  | nil =>
      cases hpi : pyInt r1 with
      | none => simp [hpi, secondNotifyTimeout, isNotifyEvent, Except.map]
      | some k => simp [hpi, secondNotifyTimeout, isNotifyEvent, Except.map]
  | cons r2 rs2 =>
      have hlen : ((text :: r1 :: r2 :: rs2).length = 2) = False := by
        simp [List.length_cons]
      simp [hlen, secondNotifyTimeout, isNotifyEvent, Except.map]

/-- C10 witness: `"searching#7"` triggers two `notify` calls, first with the
5000 ms default and then with the parsed 7000 ms timeout. -/
theorem fallback_double_notify_witness :
    splitOnHash "searching#7" = ["searching", "7"] ∧ (["7"] : List String) ≠ [] ∧
    (handleMessage (initNotification 0) 0 "searching#7" "ms" Args.nil).map
        (fun r => r.2.filter isNotifyEvent)
      = Except.ok [Event.notify "searching" 5000, Event.notify "searching" 7000] :=
  ⟨by decide, by decide,
    fallback_double_notify (initNotification 0) 0 "searching#7" "searching" ["7"]
      (by decide) (by decide)⟩

end Modrana
